import Mathlib

/-!
Formal model of the session-reconciliation logic of the eRehistroPH
authentication provider (src/contexts/AuthContext.tsx).

The reconciler is embedded as pure functions over an explicit environment of
remote-service responses (identity service and profile store), returning both
the resolved value and a record of the side effects the code performs
(session-refresh attempts, sign-out calls, profile-row insert attempts,
toast notifications, and setUser calls).  The change-notification handler
(onAuthStateChange) together with its debounce timer and the two
password-update flags is embedded as a timed state machine processing a
list of timestamped events.
-/

namespace ERehistro

/-- Error object returned by the remote services (code and message). -/
structure DbError where
  code : String
  message : String
deriving DecidableEq, Repr

/-- The identity issued by the auth service: stable id, email, and the
optional username stored in user_metadata. -/
structure SupabaseUser where
  id : String
  email : String
  metaUsername : Option String
deriving DecidableEq, Repr

/-- A session: the bound identity plus an optional expiry timestamp (seconds). -/
structure Session where
  user : Option SupabaseUser
  expires_at : Option Nat
deriving DecidableEq, Repr

/-- Shape of a supabase query response: data and error, either may be absent. -/
structure QueryResult (α : Type) where
  data : Option α
  error : Option DbError
deriving DecidableEq, Repr

/-- Row of the app_user table as selected by the reconciler (role, username). -/
structure AppUserRow where
  role : String
  username : Option String
deriving DecidableEq, Repr

/-- Row of the application table joined through applicant. -/
structure ApplicationRow where
  application_type : String
  status : Option String
deriving DecidableEq, Repr

/-- Row of the applicant_voter_record table. -/
structure VoterRecord where
  voter_id : Option String
  precinct_number : Option String
deriving DecidableEq, Repr

/-- Joined applicant data: the list of applications (normalised from the
array-or-single shape the client returns) and the optional voter record. -/
structure ApplicantData where
  applications : List ApplicationRow
  voterRecord : Option VoterRecord
deriving DecidableEq, Repr

/-- The reconciled view published to the application. -/
structure AuthenticatedUser where
  id : String
  email : String
  voterId : Option String
  precinct : Option String
  username : String
  role : String
  registrationStatus : Option String
deriving DecidableEq, Repr

/-- The toast notifications the provider can show, by call site. -/
inductive ToastKind where
  | errorCreateProfile
  | errorFetchProfile
  | unexpectedError
  | sessionExpired
  | loginFailed (msg : String)
  | loginSuccess
  | profileUpdateError
  | profileUpdated
  | incorrectOldPassword
  | passwordUpdateFailed
  | passwordUpdated
deriving DecidableEq, Repr

/-- Side effects performed by one reconciliation pass. -/
structure Effects where
  refreshAttempts : Nat
  signOutCalls : Nat
  insertAttempts : Nat
  persisted : List AppUserRow
  toasts : List ToastKind
  setUserCalls : List (Option AuthenticatedUser)
deriving DecidableEq, Repr

/-- The empty effect record. -/
def noEffects : Effects :=
  { refreshAttempts := 0, signOutCalls := 0, insertAttempts := 0,
    persisted := [], toasts := [], setUserCalls := [] }

/-- Responses of the remote services consumed by one reconciliation pass:
the refreshSession outcome, the app_user select, the app_user insert, the
re-fetch after a duplicate-key conflict, and the applicant query. -/
structure RemoteEnv where
  refreshError : Option DbError
  fetch : QueryResult AppUserRow
  insert : QueryResult AppUserRow
  refetch : QueryResult AppUserRow
  applicant : QueryResult ApplicantData
deriving DecidableEq, Repr

/-- JavaScript a || b for an optional string with a string default: a
null/undefined or empty string falls through to the default. -/
def jsOr2 : Option String → String → String
  | none, d => d
  | some s, d => if s = "" then d else s

/-- Boolean prefix test on character lists. -/
def charsPrefix : List Char → List Char → Bool
  | [], _ => true
  | _ :: _, [] => false
  | p :: ps, c :: cs => (p == c) && charsPrefix ps cs

/-- Boolean substring test on character lists: pat is a prefix of some
suffix. -/
def charsContains (pat : List Char) : List Char → Bool
  | [] => pat.isEmpty
  | c :: cs => charsPrefix pat (c :: cs) || charsContains pat cs

/-- Substring containment, the semantics of String.prototype.includes. -/
def strContains (s pat : String) : Bool :=
  charsContains pat.data s.data

/-- Prefix containment, the semantics of String.prototype.startsWith. -/
def strStartsWith (s pat : String) : Bool :=
  charsPrefix pat.data s.data

/-- Boolean membership in a list of strings (Array.prototype.includes). -/
def memStr (l : List String) (x : String) : Bool :=
  l.any (fun y => decide (y = x))

/-- The expiry guard: session.expires_at && session.expires_at < now.
JavaScript truthiness makes a 0 timestamp skip the refresh. -/
def sessionExpired (s : Session) (now : Nat) : Bool :=
  match s.expires_at with
  | some e => (e != 0) && decide (e < now)
  | none => false

/-- Registration status, voter id and precinct derived from the applicant
query; any error or missing row yields nulls (the inner try/catch). -/
def applicantFields (q : QueryResult ApplicantData) :
    Option String × Option String × Option String :=
  match q.error, q.data with
  | some _, _ => (none, none, none)
  | none, none => (none, none, none)
  | none, some ad =>
    let registrationStatus :=
      match ad.applications.find? (fun a => a.application_type == "register") with
      | some app =>
        match app.status with
        | some st => if st = "" then none else some st
        | none => none
      | none => none
    let voterId := ad.voterRecord.bind (fun vr => vr.voter_id)
    let precinct := ad.voterRecord.bind (fun vr => vr.precinct_number)
    (registrationStatus, voterId, precinct)

/-- The temporary in-memory profile built (identically) at the three
fallback sites: permission-denied creation, not-acceptable fetch error, and
row-absent-without-error.  Role public, metadata username, no status. -/
def tempUserOf (su : SupabaseUser) : AuthenticatedUser :=
  { id := su.id, email := su.email, voterId := none, precinct := none,
    username := jsOr2 su.metaUsername "", role := "public",
    registrationStatus := none }

/-- The user built (identically) from a created or re-fetched app_user row
(the newUser and existingAuthUser objects in the source). -/
def rowUserOf (su : SupabaseUser) (row : AppUserRow) : AuthenticatedUser :=
  { id := su.id, email := su.email, voterId := none, precinct := none,
    username := jsOr2 row.username "", role := row.role,
    registrationStatus := none }

/-- One reconciliation pass (handleSession).  Besides the remote responses
it takes the current time, the isPasswordUpdateFlow flag value the closure
reads, and the session; it returns the resolved user together with the
effects performed.  Leaves in which the JavaScript would dereference a null
row (insert or re-fetch succeeding with no data) are resolved through the
outer catch: unexpected-error toast regardless of the flow flag, null. -/
def handleSession (env : RemoteEnv) (now : Nat) (flow : Bool)
    (session : Option Session) : Option AuthenticatedUser × Effects :=
  match session with
  | none => (none, { noEffects with setUserCalls := [none] })
  | some s =>
    match s.user with
    | none => (none, { noEffects with setUserCalls := [none] })
    | some su =>
      let rc : Nat := if sessionExpired s now then 1 else 0
      if sessionExpired s now && env.refreshError.isSome then
        -- refresh failed: sign out, publish null, no toast
        (none, { noEffects with
                  refreshAttempts := 1
                  signOutCalls := 1
                  setUserCalls := [none] })
      else
        match env.fetch.error with
        | some fe =>
          if fe.code = "PGRST116" then
            -- no row: create the app_user record
            match env.insert.error with
            | some ce =>
              if ce.code = "23505" then
                -- duplicate key: another pass created it, re-fetch
                match env.refetch.error with
                | some _ =>
                  (none, { noEffects with
                            refreshAttempts := rc
                            insertAttempts := 1
                            setUserCalls := [none] })
                | none =>
                  match env.refetch.data with
                  | some row =>
                    (some (rowUserOf su row),
                     { noEffects with
                        refreshAttempts := rc
                        insertAttempts := 1
                        setUserCalls := [some (rowUserOf su row)] })
                  | none =>
                    -- null dereference, resolved by the outer catch
                    (none, { noEffects with
                              refreshAttempts := rc
                              insertAttempts := 1
                              toasts := [ToastKind.unexpectedError]
                              setUserCalls := [none] })
              else if ce.code = "42501" then
                -- RLS policy violation: temporary profile, nothing persisted
                (some (tempUserOf su),
                 { noEffects with
                    refreshAttempts := rc
                    insertAttempts := 1
                    setUserCalls := [some (tempUserOf su)] })
              else
                (none, { noEffects with
                          refreshAttempts := rc
                          insertAttempts := 1
                          toasts := if flow then [] else [ToastKind.errorCreateProfile]
                          setUserCalls := [none] })
            | none =>
              match env.insert.data with
              | some row =>
                (some (rowUserOf su row),
                 { noEffects with
                    refreshAttempts := rc
                    insertAttempts := 1
                    persisted := [row]
                    setUserCalls := [some (rowUserOf su row)] })
              | none =>
                -- null dereference, resolved by the outer catch
                (none, { noEffects with
                          refreshAttempts := rc
                          insertAttempts := 1
                          toasts := [ToastKind.unexpectedError]
                          setUserCalls := [none] })
          else if fe.code = "406" || strContains fe.message "Not Acceptable" then
            (some (tempUserOf su),
             { noEffects with
                refreshAttempts := rc
                setUserCalls := [some (tempUserOf su)] })
          else
            (none, { noEffects with
                      refreshAttempts := rc
                      toasts := if flow then [] else [ToastKind.errorFetchProfile]
                      setUserCalls := [none] })
        | none =>
          match env.fetch.data with
          | some appUser =>
            let rvp := applicantFields env.applicant
            let authenticatedUser : AuthenticatedUser :=
              { id := su.id, email := su.email,
                voterId := rvp.2.1, precinct := rvp.2.2,
                username := jsOr2 appUser.username (jsOr2 su.metaUsername ""),
                role := appUser.role, registrationStatus := rvp.1 }
            (some authenticatedUser,
             { noEffects with
                refreshAttempts := rc
                setUserCalls := [some authenticatedUser] })
          | none =>
            -- row exists in auth but not yet in app_user
            (some (tempUserOf su),
             { noEffects with
                refreshAttempts := rc
                setUserCalls := [some (tempUserOf su)] })

/-- The refresh-token-error handler: sign out, clear the user, and show the
session-expired toast.  This handler, not handleSession, is the only
emitter of the session-expired notification. -/
def handleRefreshTokenError : Effects :=
  { noEffects with
     signOutCalls := 1
     toasts := [ToastKind.sessionExpired]
     setUserCalls := [none] }

/-! ### Route guard -/

/-- Routes reachable while authenticated as a public user. -/
def publicUserAuthenticatedPaths : List String :=
  ["/public/home", "/public/track-status", "/public/application-submitted",
   "/public/profile", "/public/faq", "/public/schedule-biometrics"]

/-- Routes reachable while unauthenticated. -/
def publicUnauthenticatedPaths : List String :=
  ["/auth", "/", "/landing", "/public/forgot-password", "/public/reset-password"]

/-- Whether a path is allowed for unauthenticated users: exact membership in
the unauthenticated list, or a reset-password or forgot-password substring. -/
def isPublicPath (pathname : String) : Bool :=
  memStr publicUnauthenticatedPaths pathname ||
    strContains pathname "/reset-password" ||
    strContains pathname "/forgot-password"

/-- The full allow-list the unauthenticated branch of the guard checks. -/
def allowListed (pathname : String) : Bool :=
  memStr publicUserAuthenticatedPaths pathname || isPublicPath pathname

/-- The route-guard effect: given the loading flag, the published user and
the current pathname, the redirect it pushes (none for no redirect). -/
def routeGuard (isLoading : Bool) (user : Option AuthenticatedUser)
    (pathname : String) : Option String :=
  if isLoading then none
  else
    match user with
    | some u =>
      if u.role = "officer" && strStartsWith pathname "/public/" then
        some "/dashboard"
      else if u.role = "public" && strStartsWith pathname "/dashboard" then
        some "/public/home"
      else none
    | none =>
      if !memStr publicUserAuthenticatedPaths pathname && !isPublicPath pathname then
        some "/auth"
      else none

/-! ### login -/

/-- Response of signInWithPassword: optional session and optional error. -/
structure SignInResult where
  session : Option Session
  error : Option DbError
deriving DecidableEq, Repr

/-- Observable outcome of login: whether a reconciliation ran and what it
resolved to, the navigation pushed, and the toasts shown. -/
structure LoginOut where
  reconciled : Option (Option AuthenticatedUser)
  nav : Option String
  toasts : List ToastKind
deriving DecidableEq, Repr

/-- The login operation: password sign-in, then on success reconcile the
returned session and push the role-appropriate route; on failure surface
the service error message and return without reconciling or navigating. -/
def login (env : RemoteEnv) (now : Nat) (flow : Bool)
    (signInResult : SignInResult) : LoginOut :=
  match signInResult.error with
  | some e =>
    { reconciled := none, nav := none, toasts := [ToastKind.loginFailed e.message] }
  | none =>
    match signInResult.session with
    | some s =>
      let userData := (handleSession env now flow (some s)).1
      let redirectTo :=
        if (match userData with
            | some u => u.role == "officer"
            | none => false) then "/dashboard" else "/public/home"
      { reconciled := some userData, nav := some redirectTo,
        toasts := [ToastKind.loginSuccess] }
    | none => { reconciled := none, nav := none, toasts := [] }

/-! ### updateUserProfile and the two-table store -/

/-- Row of the profile table (the table updateUserProfile writes). -/
structure ProfileRow where
  username : Option String
deriving DecidableEq, Repr

/-- The relational store: the app_user table the reconciler reads and
creates rows in, and the profile table updateUserProfile writes.  Both are
keyed by auth_id. -/
structure Store where
  app_user : List (String × AppUserRow)
  profile : List (String × ProfileRow)
deriving DecidableEq, Repr

/-- The single-row select of app_user by auth_id: the PGRST116 error when
no row matches. -/
def storeFetch (st : Store) (authId : String) : QueryResult AppUserRow :=
  match st.app_user.find? (fun kv => kv.1 == authId) with
  | some kv => { data := some kv.2, error := none }
  | none =>
    { data := none,
      error := some { code := "PGRST116", message := "single row not found" } }

/-- Observable outcome of updateUserProfile: the returned boolean, the
store afterwards, the reconciliation result if one ran, and the toasts. -/
structure UpdateProfileOut where
  ok : Bool
  store : Store
  reconciled : Option (Option AuthenticatedUser)
  toasts : List ToastKind
deriving DecidableEq, Repr

/-- The updateUserProfile operation: with no logged-in user return false;
otherwise update the username column of the profile table for the current
auth_id (updateError models a store rejection), then run a reconciliation
pass whose app_user fetch reads the (unchanged) app_user table, and return
true. -/
def updateUserProfile (st : Store) (user : Option AuthenticatedUser)
    (uname : Option String) (updateError : Option DbError)
    (renv : RemoteEnv) (now : Nat) (flow : Bool)
    (session : Option Session) : UpdateProfileOut :=
  match user with
  | none => { ok := false, store := st, reconciled := none, toasts := [] }
  | some u =>
    match updateError with
    | some _ =>
      { ok := false, store := st, reconciled := none,
        toasts := [ToastKind.profileUpdateError] }
    | none =>
      let st1 : Store :=
        { st with
           profile := st.profile.map
             (fun kv => if kv.1 == u.id then (kv.1, { username := uname }) else kv) }
      let renv1 : RemoteEnv := { renv with fetch := storeFetch st1 u.id }
      let result := (handleSession renv1 now flow session).1
      { ok := true, store := st1, reconciled := some result,
        toasts := [ToastKind.profileUpdated] }

/-! ### The change-notification handler, its debounce timer, and the two
password-update flags, as a timed state machine.

The provider state carries the published user, the isPasswordUpdateFlow
React state set by updateUserPassword together with its scheduled 3000 ms
clears, the effect-local isProcessingPasswordUpdate flag set by the
USER_UPDATED event together with its scheduled 2000 ms clears, the single
debounce timer (fire time and captured session), and the list of executed
reconciliation passes (the sessions they were given).  The reconciliation
outcome is abstracted by a function rf from session to published user. -/

/-- Auth-state change events.  Events other than the four specially
handled ones are collapsed into otherEvent. -/
inductive AuthEvent where
  | tokenRefreshed
  | userUpdated
  | signedOut
  | signedIn
  | otherEvent
deriving DecidableEq, Repr

/-- State of the provider relevant to change-notification handling. -/
structure ProviderState where
  user : Option AuthenticatedUser
  isPasswordUpdateFlow : Bool
  flowClears : List Nat
  isProcessingPasswordUpdate : Bool
  procClears : List Nat
  pending : Option (Nat × Option Session)
  reconciles : List (Option Session)
deriving Repr

/-- Fire every timer due by time t: scheduled flag clears set their flag to
false, and a due debounce timer runs the reconciliation with its captured
session, replacing the published user.  The clear callbacks only write
their flag and the debounce callback does not read either flag, so the
firing order among due timers is immaterial and they are applied in one
step. -/
def fireDue (rf : Option Session → Option AuthenticatedUser)
    (st : ProviderState) (t : Nat) : ProviderState :=
  let st1 :=
    if st.procClears.any (fun c => decide (c ≤ t)) then
      { st with
         isProcessingPasswordUpdate := false
         procClears := st.procClears.filter (fun c => decide (t < c)) }
    else st
  let st2 :=
    if st1.flowClears.any (fun c => decide (c ≤ t)) then
      { st1 with
         isPasswordUpdateFlow := false
         flowClears := st1.flowClears.filter (fun c => decide (t < c)) }
    else st1
  match st2.pending with
  | some p =>
    if decide (p.1 ≤ t) then
      { st2 with
         pending := none
         reconciles := st2.reconciles ++ [p.2]
         user := rf p.2 }
    else st2
  | none => st2

/-- The onAuthStateChange callback for one event arriving at time t with
session sess, after firing due timers.  TOKEN_REFRESHED is a no-op;
USER_UPDATED raises the processing flag and schedules its 2000 ms clear
without reconciling; SIGNED_OUT clears the user unless the processing flag
is up; SIGNED_IN lowers the flag if it is up; SIGNED_IN and every other
event cancel and reschedule the 100 ms debounce timer with this session. -/
def stepEvent (rf : Option Session → Option AuthenticatedUser)
    (st : ProviderState) (t : Nat) (e : AuthEvent)
    (sess : Option Session) : ProviderState :=
  let st0 := fireDue rf st t
  match e with
  | .tokenRefreshed => st0
  | .userUpdated =>
    { st0 with
       isProcessingPasswordUpdate := true
       procClears := st0.procClears ++ [t + 2000] }
  | .signedOut =>
    if st0.isProcessingPasswordUpdate then st0 else { st0 with user := none }
  | .signedIn =>
    let st1 :=
      if st0.isProcessingPasswordUpdate then
        { st0 with isProcessingPasswordUpdate := false }
      else st0
    { st1 with pending := some (t + 100, sess) }
  | .otherEvent => { st0 with pending := some (t + 100, sess) }

/-- Run a time-ordered list of timestamped events through the handler. -/
def runTrace (rf : Option Session → Option AuthenticatedUser)
    (st : ProviderState) :
    List (Nat × AuthEvent × Option Session) → ProviderState
  | [] => st
  | (t, e, sess) :: rest => runTrace rf (stepEvent rf st t e sess) rest

/-- Outcome of updateUserPassword: the returned boolean, the state
afterwards, and the toasts shown. -/
structure PwdOut where
  ok : Bool
  state : ProviderState
  toasts : List ToastKind
deriving Repr

/-- The updateUserPassword operation at time t: with no user return false;
otherwise raise isPasswordUpdateFlow, re-authenticate when an old password
is supplied (failing with a toast on a sign-in error), request the
password change (failing with a toast on an update error), and on success
schedule the 3000 ms clear of the flag and return true. -/
def updateUserPassword (st : ProviderState) (t : Nat) (oldPass : String)
    (signInError : Option DbError) (updateError : Option DbError) : PwdOut :=
  match st.user with
  | none => { ok := false, state := st, toasts := [] }
  | some _ =>
    let st1 := { st with isPasswordUpdateFlow := true }
    if oldPass != "" && signInError.isSome then
      { ok := false, state := st1, toasts := [ToastKind.incorrectOldPassword] }
    else
      match updateError with
      | some _ =>
        { ok := false, state := st1, toasts := [ToastKind.passwordUpdateFailed] }
      | none =>
        { ok := true,
          state := { st1 with flowClears := st1.flowClears ++ [t + 3000] },
          toasts := [ToastKind.passwordUpdated] }

/-- Whether an event reaches the debounce branch of the handler. -/
def debounced : AuthEvent → Bool
  | .signedIn => true
  | .otherEvent => true
  | _ => false

/-- A burst: each event arrives strictly less than 100 ms after the
previous one, so each cancels the pending debounce timer of the previous. -/
def isBurst : List (Nat × AuthEvent × Option Session) → Bool
  | [] => true
  | [_] => true
  | (t1, _, _) :: (t2, e2, s2) :: rest =>
    decide (t2 < t1 + 100) && isBurst ((t2, e2, s2) :: rest)

/-- The arrival time of the last event of x :: L. -/
def lastTime (x : Nat × AuthEvent × Option Session) :
    List (Nat × AuthEvent × Option Session) → Nat
  | [] => x.1
  | y :: rest => lastTime y rest

/-- The session of the last event of x :: L. -/
def lastSess (x : Nat × AuthEvent × Option Session) :
    List (Nat × AuthEvent × Option Session) → Option Session
  | [] => x.2.2
  | y :: rest => lastSess y rest

/-! ### Concrete fixtures used by witnesses and counterexamples -/

/-- A concrete identity. -/
def suX : SupabaseUser := { id := "user-1", email := "x@y.z", metaUsername := some "alice" }

/-- A session with no expiry. -/
def sessPlain : Session := { user := some suX, expires_at := none }

/-- A session expired at time 100. -/
def sessExpired : Session := { user := some suX, expires_at := some 10 }

/-- A session whose expiry timestamp is 0 (in the past at any positive time). -/
def sessZero : Session := { user := some suX, expires_at := some 0 }

/-- An applicant query returning no row and no error. -/
def qAppNone : QueryResult ApplicantData := { data := none, error := none }

/-- An empty app_user query response. -/
def qRowNone : QueryResult AppUserRow := { data := none, error := none }

/-- A concrete app_user row. -/
def rowPub : AppUserRow := { role := "public", username := some "alice" }

/-- An environment whose session refresh fails and whose fetch succeeds. -/
def envRefreshFail : RemoteEnv :=
  { refreshError := some { code := "401", message := "refresh failed" }
    fetch := { data := some rowPub, error := none }
    insert := qRowNone
    refetch := qRowNone
    applicant := qAppNone }

/-- The same environment with a healthy refresh. -/
def envPlain : RemoteEnv := { envRefreshFail with refreshError := none }

/-! ### C6: route-guard policy -/

/-- C6: after the initial loading phase, an officer on a path under
/public/ is redirected to the dashboard route; a public-role user on a
path under /dashboard is redirected to the public home route; an
unauthenticated state on a path not on the allow-list (exact membership in
either route list, or a reset-password or forgot-password substring) is
redirected to the auth route; an unauthenticated state on an allow-listed
path triggers no redirect. -/
theorem route_guard_policy (user : Option AuthenticatedUser) (pathname : String) :
    (∀ u, user = some u → u.role = "officer" →
      strStartsWith pathname "/public/" = true →
      routeGuard false user pathname = some "/dashboard") ∧
    (∀ u, user = some u → u.role = "public" →
      strStartsWith pathname "/dashboard" = true →
      routeGuard false user pathname = some "/public/home") ∧
    (user = none → allowListed pathname = false →
      routeGuard false user pathname = some "/auth") ∧
    (user = none → allowListed pathname = true →
      routeGuard false user pathname = none) := by
  refine ⟨?_, ?_, ?_, ?_⟩
  · rintro u rfl hr hp
    simp [routeGuard, hr, hp]
  · rintro u rfl hr hp
    simp [routeGuard, hr, hp]
  · rintro rfl hl
    rw [allowListed, Bool.or_eq_false_iff] at hl
    simp [routeGuard, hl.1, hl.2]
  · rintro rfl hl
    rw [allowListed, Bool.or_eq_true] at hl
    rcases hl with h | h <;> simp [routeGuard, h]

/-- Witness for route_guard_policy: an officer on a public path is sent to
the dashboard, and an unauthenticated visit to an unlisted path is sent to
the auth route. -/
theorem route_guard_policy_witness :
    routeGuard false (some { id := "o", email := "o@g.h", voterId := none, precinct := none, username := "off", role := "officer", registrationStatus := none }) "/public/home" = some "/dashboard" ∧
    routeGuard false none "/secret" = some "/auth" := by
  constructor
  · exact (route_guard_policy _ "/public/home").1 _ rfl rfl (by decide)
  · exact (route_guard_policy none "/secret").2.2.1 rfl (by decide)

/-! ### C8: permission-denied fallback -/

/-- C8: when profile creation fails with the permission-denied code 42501,
reconcile resolves to the temporary profile: a non-null user with role
public and the identity metadata username, null registration status; the
single insert attempt persists nothing, no toast is shown and nothing else
happens. -/
theorem permission_denied_fallback (env : RemoteEnv) (now : Nat) (flow : Bool)
    (s : Session) (su : SupabaseUser) (fm cm : String)
    (hs : s.user = some su)
    (hr : sessionExpired s now = true → env.refreshError = none)
    (hf : env.fetch.error = some { code := "PGRST116", message := fm })
    (hi : env.insert.error = some { code := "42501", message := cm }) :
    handleSession env now flow (some s) =
      (some (tempUserOf su),
       { noEffects with
          refreshAttempts := if sessionExpired s now then 1 else 0
          insertAttempts := 1
          setUserCalls := [some (tempUserOf su)] }) := by
  by_cases hexp : sessionExpired s now
  · have hre := hr hexp
    simp [handleSession, hs, hf, hi, hexp, hre]
  · simp [handleSession, hs, hf, hi, hexp]

/-- Witness for permission_denied_fallback at a concrete environment. -/
theorem permission_denied_fallback_witness :
    handleSession
      { refreshError := none
        fetch := { data := none, error := some { code := "PGRST116", message := "no row" } }
        insert := { data := none, error := some { code := "42501", message := "rls" } }
        refetch := qRowNone
        applicant := qAppNone } 7 false (some sessPlain) =
      (some (tempUserOf suX),
       { noEffects with
          refreshAttempts := if sessionExpired sessPlain 7 then 1 else 0
          insertAttempts := 1
          setUserCalls := [some (tempUserOf suX)] }) := by
  exact permission_denied_fallback _ 7 false sessPlain suX "no row" "rls"
    rfl (by decide) rfl rfl

/-! ### C2: expired sessions -/

/-- C2 counterexample: with an expired session and a failing refresh,
reconcile signs out and publishes null but shows no toast at all, so no
user-visible session-expired notification is surfaced (that toast exists
only in the separate refresh-token-error handler); moreover a session
whose expiry timestamp is 0, although in the past at time 5, triggers no
refresh attempt because of JavaScript truthiness, so not every session
with a past expiry gets a refresh attempt. -/
theorem expired_session_no_toast :
    handleSession envRefreshFail 100 false (some sessExpired) =
      (none,
       { noEffects with
          refreshAttempts := 1
          signOutCalls := 1
          setUserCalls := [none] }) ∧
    (handleSession envPlain 5 false (some sessZero)).2.refreshAttempts = 0 := by
  constructor
  · decide
  · decide

/-- C2 (amended): for a session with a nonzero expiry timestamp in the
past, reconcile makes exactly one refresh attempt before proceeding; if
the refresh fails it performs one sign-out, publishes null and emits no
notification. -/
theorem expired_session_refresh (env : RemoteEnv) (now : Nat) (flow : Bool)
    (s : Session) (su : SupabaseUser) (e : Nat)
    (hs : s.user = some su) (he : s.expires_at = some e)
    (h0 : e ≠ 0) (hlt : e < now) :
    (handleSession env now flow (some s)).2.refreshAttempts = 1 ∧
    (env.refreshError.isSome = true →
      handleSession env now flow (some s) =
        (none,
         { noEffects with
            refreshAttempts := 1
            signOutCalls := 1
            setUserCalls := [none] })) := by
  have hexp : sessionExpired s now = true := by
    simp [sessionExpired, he, h0, hlt]
  constructor
  · by_cases hre : env.refreshError.isSome
    · simp [handleSession, hs, hexp, hre]
    · simp only [handleSession, hs, hexp]
      rw [Bool.not_eq_true] at hre
      simp only [hre, Bool.and_false, Bool.false_eq_true, if_false, if_true, reduceIte]
      repeat' split
      all_goals rfl
  · intro hre
    simp [handleSession, hs, hexp, hre]

/-- Witness for expired_session_refresh at a concrete environment. -/
theorem expired_session_refresh_witness :
    (handleSession envRefreshFail 100 false (some sessExpired)).2.refreshAttempts = 1 ∧
    handleSession envRefreshFail 100 false (some sessExpired) =
      (none,
       { noEffects with
          refreshAttempts := 1
          signOutCalls := 1
          setUserCalls := [none] }) := by
  have h := expired_session_refresh envRefreshFail 100 false sessExpired suX 10
    rfl rfl (by decide) (by decide)
  exact ⟨h.1, h.2 (by decide)⟩

/-! ### C1: duplicate-key convergence -/

/-- C1: for an identity with no profile row (PGRST116 on fetch), a pass
whose creation fails with the duplicate-key code 23505 and whose re-fetch
returns the row another pass created resolves to exactly the same
published user as the pass whose insert succeeded with that row: the same
id, email, username, role and (null) registration status, so both passes
converge on the single persisted row. -/
theorem duplicate_key_convergence (su : SupabaseUser) (row : AppUserRow)
    (s : Session) (now : Nat) (flow : Bool) (env1 env2 : RemoteEnv)
    (m1 m2 m3 : String)
    (hs : s.user = some su)
    (hr1 : sessionExpired s now = true → env1.refreshError = none)
    (hr2 : sessionExpired s now = true → env2.refreshError = none)
    (hf1 : env1.fetch.error = some { code := "PGRST116", message := m1 })
    (hi1 : env1.insert.error = some { code := "23505", message := m2 })
    (hre1 : env1.refetch = { data := some row, error := none })
    (hf2 : env2.fetch.error = some { code := "PGRST116", message := m3 })
    (hi2 : env2.insert = { data := some row, error := none }) :
    (handleSession env1 now flow (some s)).1 = (handleSession env2 now flow (some s)).1 ∧
    (handleSession env1 now flow (some s)).1 = some (rowUserOf su row) ∧
    (rowUserOf su row).id = su.id ∧
    (rowUserOf su row).email = su.email ∧
    (rowUserOf su row).username = jsOr2 row.username "" ∧
    (rowUserOf su row).role = row.role ∧
    (rowUserOf su row).registrationStatus = none := by
  have h1 : (handleSession env1 now flow (some s)).1 = some (rowUserOf su row) := by
    by_cases hexp : sessionExpired s now
    · simp [handleSession, hs, hexp, hr1 hexp, hf1, hi1, hre1]
    · simp [handleSession, hs, hexp, hf1, hi1, hre1]
  have h2 : (handleSession env2 now flow (some s)).1 = some (rowUserOf su row) := by
    by_cases hexp : sessionExpired s now
    · simp [handleSession, hs, hexp, hr2 hexp, hf2, hi2]
    · simp [handleSession, hs, hexp, hf2, hi2]
  exact ⟨h1.trans h2.symm, h1, rfl, rfl, rfl, rfl, rfl⟩

/-- Witness for duplicate_key_convergence: both passes on concrete
environments resolve to the same user built from the shared row. -/
theorem duplicate_key_convergence_witness :
    (handleSession
      { refreshError := none
        fetch := { data := none, error := some { code := "PGRST116", message := "a" } }
        insert := { data := none, error := some { code := "23505", message := "dup" } }
        refetch := { data := some rowPub, error := none }
        applicant := qAppNone } 3 false (some sessPlain)).1 =
    (handleSession
      { refreshError := none
        fetch := { data := none, error := some { code := "PGRST116", message := "b" } }
        insert := { data := some rowPub, error := none }
        refetch := qRowNone
        applicant := qAppNone } 3 false (some sessPlain)).1 := by
  exact (duplicate_key_convergence suX rowPub sessPlain 3 false _ _ "a" "dup" "b"
    rfl (by decide) (by decide) rfl rfl rfl rfl rfl).1

/-! ### C5: login -/

/-- C5: a failed password sign-in surfaces the service error message,
runs no reconciliation (so the published user is untouched and remains
null when it was null) and navigates nowhere; a successful sign-in
reconciles the returned session, then navigates to the dashboard route
when the reconciled role is officer and to the public home route for any
other outcome. -/
theorem login_navigation (env : RemoteEnv) (now : Nat) (flow : Bool)
    (sr : SignInResult) :
    (∀ e, sr.error = some e →
      login env now flow sr =
        { reconciled := none, nav := none,
          toasts := [ToastKind.loginFailed e.message] }) ∧
    (∀ s, sr.error = none → sr.session = some s →
      (login env now flow sr).reconciled =
        some (handleSession env now flow (some s)).1 ∧
      (∀ u, (handleSession env now flow (some s)).1 = some u →
        u.role = "officer" → (login env now flow sr).nav = some "/dashboard") ∧
      (∀ u, (handleSession env now flow (some s)).1 = some u →
        u.role ≠ "officer" → (login env now flow sr).nav = some "/public/home") ∧
      ((handleSession env now flow (some s)).1 = none →
        (login env now flow sr).nav = some "/public/home")) := by
  refine ⟨?_, ?_⟩
  · intro e he
    simp [login, he]
  · intro s he hsess
    refine ⟨?_, ?_, ?_, ?_⟩
    · simp [login, he, hsess]
    · intro u hu hrole
      simp [login, he, hsess, hu, hrole]
    · intro u hu hrole
      simp [login, he, hsess, hu, hrole]
    · intro hu
      simp [login, he, hsess, hu]

/-- A failed sign-in response. -/
def srBad : SignInResult :=
  { session := none, error := some { code := "400", message := "Invalid login credentials" } }

/-- A successful sign-in response carrying the plain session. -/
def srGood : SignInResult := { session := some sessPlain, error := none }

/-- An environment whose fetch returns an officer row. -/
def envOfficer : RemoteEnv :=
  { envPlain with fetch := { data := some { role := "officer", username := some "boss" }, error := none } }

/-- Witness for login_navigation: a concrete failed sign-in and a
concrete successful officer sign-in. -/
theorem login_navigation_witness :
    login envPlain 3 false srBad =
      { reconciled := none, nav := none,
        toasts := [ToastKind.loginFailed "Invalid login credentials"] } ∧
    (login envOfficer 3 false srGood).nav = some "/dashboard" := by
  constructor
  · exact (login_navigation envPlain 3 false srBad).1 _ rfl
  · exact ((login_navigation envOfficer 3 false srGood).2 sessPlain rfl rfl).2.1
      { id := "user-1", email := "x@y.z", voterId := none, precinct := none, username := "boss", role := "officer", registrationStatus := none }
      (by decide) rfl

/-! ### C4: updateUserProfile writes a table the reconciler does not read -/

/-- The app_user row holding the old username. -/
def rowOld : AppUserRow := { role := "public", username := some "old" }

/-- A store with one user whose app_user and profile rows both hold the
old username. -/
def storeC4 : Store :=
  { app_user := [("user-1", rowOld)], profile := [("user-1", { username := some "old" })] }

/-- The currently published user for that store. -/
def authC4 : AuthenticatedUser :=
  { id := "user-1", email := "x@y.z", voterId := none, precinct := none, username := "old", role := "public", registrationStatus := none }

/-- C4 evaluation at the failing input: updateUserProfile with a new
username returns true and rewrites the profile table, but the app_user
table the reconciliation pass reads is untouched, so the pass it triggers
publishes the old username: the record it updates is not the record a
subsequent reconciliation reads. -/
theorem update_profile_table_mismatch :
    (updateUserProfile storeC4 (some authC4) (some "new") none envPlain 0 false (some sessPlain)).ok = true ∧
    (updateUserProfile storeC4 (some authC4) (some "new") none envPlain 0 false (some sessPlain)).store.profile =
      [("user-1", { username := some "new" })] ∧
    (updateUserProfile storeC4 (some authC4) (some "new") none envPlain 0 false (some sessPlain)).store.app_user =
      storeC4.app_user ∧
    (updateUserProfile storeC4 (some authC4) (some "new") none envPlain 0 false (some sessPlain)).reconciled =
      some (some { id := "user-1", email := "x@y.z", voterId := none, precinct := none, username := "old", role := "public", registrationStatus := none }) := by
  refine ⟨by decide, by decide, by decide, by decide⟩

/-! ### C9: total resolution and notification policy -/

/-- C9 counterexample: with the password-update flow in progress
(flow = true), a pass whose duplicate-key re-fetch succeeds with no data
(the JavaScript dereferences a null row and the outer catch runs) still
shows the unexpected-error notification: the user-facing notification is
not suppressed during a password-update flow on this failure path. -/
theorem unexpected_toast_not_suppressed :
    (handleSession
      { refreshError := none
        fetch := { data := none, error := some { code := "PGRST116", message := "m" } }
        insert := { data := none, error := some { code := "23505", message := "dup" } }
        refetch := { data := none, error := none }
        applicant := qAppNone } 0 true (some sessPlain)).2.toasts =
      [ToastKind.unexpectedError] ∧
    (handleSession
      { refreshError := none
        fetch := { data := none, error := some { code := "PGRST116", message := "m" } }
        insert := { data := none, error := some { code := "23505", message := "dup" } }
        refetch := { data := none, error := none }
        applicant := qAppNone } 0 true (some sessPlain)).1 = none := by
  exact ⟨by decide, by decide⟩

/-- C9 (amended): reconcile never throws outward: every pass resolves to
a user or null and publishes exactly the resolved value through a single
setUser call; the profile creation-error and fetch-error notifications
are emitted only when the password-update flow is off and only on null
resolutions; the unexpected-error notification always accompanies a null
resolution but is shown regardless of the flow flag. -/
theorem reconcile_total_resolution (env : RemoteEnv) (now : Nat) (flow : Bool)
    (session : Option Session) :
    (handleSession env now flow session).2.setUserCalls =
      [(handleSession env now flow session).1] ∧
    (ToastKind.errorCreateProfile ∈ (handleSession env now flow session).2.toasts →
      flow = false ∧ (handleSession env now flow session).1 = none) ∧
    (ToastKind.errorFetchProfile ∈ (handleSession env now flow session).2.toasts →
      flow = false ∧ (handleSession env now flow session).1 = none) ∧
    (ToastKind.unexpectedError ∈ (handleSession env now flow session).2.toasts →
      (handleSession env now flow session).1 = none) := by
  unfold handleSession
  rcases session with _ | s
  · simp [noEffects]
  · rcases hu : s.user with _ | su <;> simp only [hu]
    · simp [noEffects]
    · repeat' split
      all_goals (rcases flow <;> simp_all [noEffects])

/-- Witness for reconcile_total_resolution: at a concrete failing
environment with the flow off, the creation-error toast implies a null
resolution. -/
theorem reconcile_total_resolution_witness :
    (false = false ∧
      (handleSession
        { refreshError := none
          fetch := { data := none, error := some { code := "PGRST116", message := "m" } }
          insert := { data := none, error := some { code := "500", message := "boom" } }
          refetch := qRowNone
          applicant := qAppNone } 0 false (some sessPlain)).1 = none) := by
  exact (reconcile_total_resolution _ 0 false (some sessPlain)).2.1 (by decide)

/-! ### C10: fallback paths never escalate privileges -/

/-- Evidence that one of the three app_user queries of a pass returned a
row carrying role r. -/
def rowWithRole (env : RemoteEnv) (r : String) : Bool :=
  (match env.fetch.data with | some row => row.role == r | none => false) ||
  (match env.insert.data with | some row => row.role == r | none => false) ||
  (match env.refetch.data with | some row => row.role == r | none => false)

/-- C10: every user published by a fallback path (permission-denied
creation, not-acceptable fetch error, or row absent without a fetch
error) is the temporary profile, which has role public and null
registration status; and whenever a pass publishes a user with role
officer, one of its store queries actually returned a row carrying that
role, so no transient-error recovery path can escalate privileges. -/
theorem no_privilege_escalation (env : RemoteEnv) (now : Nat) (flow : Bool)
    (s : Session) :
    (∀ su fm cm, s.user = some su →
      (sessionExpired s now = true → env.refreshError = none) →
      env.fetch.error = some { code := "PGRST116", message := fm } →
      env.insert.error = some { code := "42501", message := cm } →
      (handleSession env now flow (some s)).1 = some (tempUserOf su)) ∧
    (∀ su fe, s.user = some su →
      (sessionExpired s now = true → env.refreshError = none) →
      env.fetch.error = some fe → fe.code ≠ "PGRST116" →
      (fe.code = "406" ∨ strContains fe.message "Not Acceptable" = true) →
      (handleSession env now flow (some s)).1 = some (tempUserOf su)) ∧
    (∀ su, s.user = some su →
      (sessionExpired s now = true → env.refreshError = none) →
      env.fetch.error = none → env.fetch.data = none →
      (handleSession env now flow (some s)).1 = some (tempUserOf su)) ∧
    (∀ su, (tempUserOf su).role = "public" ∧
      (tempUserOf su).registrationStatus = none) ∧
    (∀ u eff, handleSession env now flow (some s) = (some u, eff) →
      u.role = "officer" → rowWithRole env "officer" = true) := by
  refine ⟨?_, ?_, ?_, fun su => ⟨rfl, rfl⟩, ?_⟩
  · intro su fm cm hs hr hf hi
    by_cases hexp : sessionExpired s now
    · simp [handleSession, hs, hexp, hr hexp, hf, hi]
    · simp [handleSession, hs, hexp, hf, hi]
  · intro su fe hs hr hf hcode hna
    by_cases hexp : sessionExpired s now
    · rcases hna with h | h
      · simp [handleSession, hs, hexp, hr hexp, hf, hcode, h]
      · simp [handleSession, hs, hexp, hr hexp, hf, hcode, h]
    · rcases hna with h | h
      · simp [handleSession, hs, hexp, hf, hcode, h]
      · simp [handleSession, hs, hexp, hf, hcode, h]
  · intro su hs hr hf hd
    by_cases hexp : sessionExpired s now
    · simp [handleSession, hs, hexp, hr hexp, hf, hd]
    · simp [handleSession, hs, hexp, hf, hd]
  · intro u eff heq hrole
    simp only [handleSession] at heq
    rcases hsu : s.user with _ | su <;> rw [hsu] at heq
    · simp at heq
    · repeat' split at heq
      all_goals
        (simp only [Prod.mk.injEq, Option.some.injEq] at heq
         try obtain ⟨h1, h2⟩ := heq
         try subst h1
         simp_all [rowWithRole, rowUserOf, tempUserOf])

/-- Witness for no_privilege_escalation: a concrete permission-denied
creation resolves to the temporary public profile, and a concrete
officer resolution exhibits the officer row in the fetch response. -/
theorem no_privilege_escalation_witness :
    (handleSession
      { refreshError := none
        fetch := { data := none, error := some { code := "PGRST116", message := "no row" } }
        insert := { data := none, error := some { code := "42501", message := "rls" } }
        refetch := qRowNone
        applicant := qAppNone } 0 false (some sessPlain)).1 = some (tempUserOf suX) ∧
    rowWithRole envOfficer "officer" = true := by
  constructor
  · exact (no_privilege_escalation _ 0 false sessPlain).1 suX "no row" "rls"
      rfl (by decide) rfl rfl
  · exact (no_privilege_escalation envOfficer 3 false sessPlain).2.2.2.2
      { id := "user-1", email := "x@y.z", voterId := none, precinct := none, username := "boss", role := "officer", registrationStatus := none }
      { noEffects with setUserCalls := [some { id := "user-1", email := "x@y.z", voterId := none, precinct := none, username := "boss", role := "officer", registrationStatus := none }] }
      (by decide) rfl

/-! ### C3: the password-update window and SIGNED_OUT -/

/-- A reconciliation oracle resolving every session to null. -/
def rfNone : Option Session → Option AuthenticatedUser := fun _ => none

/-- A quiescent provider state with a published user and no timers. -/
def stQuiet : ProviderState :=
  { user := some (tempUserOf suX), isPasswordUpdateFlow := false,
    flowClears := [], isProcessingPasswordUpdate := false, procClears := [],
    pending := none, reconciles := [] }

/-- C3 counterexample: updateUserPassword succeeds at time 0, raising the
isPasswordUpdateFlow flag whose window runs to time 3000, yet a
SIGNED_OUT notification at time 1 — well inside that window — clears the
published user, because the handler consults the separate
isProcessingPasswordUpdate flag, which only the USER_UPDATED event sets. -/
theorem password_flag_does_not_block_signout :
    (updateUserPassword stQuiet 0 "" none none).ok = true ∧
    (updateUserPassword stQuiet 0 "" none none).state.isPasswordUpdateFlow = true ∧
    (updateUserPassword stQuiet 0 "" none none).state.flowClears = [3000] ∧
    (1 : Nat) < 3000 ∧
    (stepEvent rfNone (updateUserPassword stQuiet 0 "" none none).state
      1 .signedOut none).user = none := by
  refine ⟨by decide, by decide, by decide, by decide, by decide⟩

/-- C3 (amended): the window during which SIGNED_OUT is ignored is opened
by the USER_UPDATED change notification (which the identity service emits
while rotating credentials after a successful password update) and lasts
2000 ms: from a quiescent state with a published user, a SIGNED_OUT
arriving within the window leaves the user untouched, a SIGNED_OUT
arriving at or after the scheduled clear time clears it, and once a
SIGNED_IN has arrived a subsequent SIGNED_OUT clears it as well. -/
theorem password_window_signed_out
    (rf : Option Session → Option AuthenticatedUser) (st : ProviderState)
    (u : AuthenticatedUser) (sa sb sc : Option Session) (t t1 t2 : Nat)
    (hu : st.user = some u) (hpc : st.procClears = [])
    (hfc : st.flowClears = []) (hpd : st.pending = none) :
    (t1 < t + 2000 →
      (runTrace rf st [(t, .userUpdated, sa), (t1, .signedOut, sb)]).user = some u) ∧
    (t + 2000 ≤ t1 →
      (runTrace rf st [(t, .userUpdated, sa), (t1, .signedOut, sb)]).user = none) ∧
    ((runTrace rf st [(t, .userUpdated, sa), (t1, .signedIn, sb), (t2, .signedOut, sc)]).user = none) := by
  have h1 : stepEvent rf st t .userUpdated sa =
      { st with isProcessingPasswordUpdate := true, procClears := [t + 2000] } := by
    simp [stepEvent, fireDue, hpc, hfc, hpd]
  refine ⟨?_, ?_, ?_⟩
  · intro hlt
    have hnle : ¬ (t + 2000 ≤ t1) := by omega
    have ha : stepEvent rf { st with isProcessingPasswordUpdate := true, procClears := [t + 2000] } t1 .signedOut sb =
        { st with isProcessingPasswordUpdate := true, procClears := [t + 2000] } := by
      simp [stepEvent, fireDue, hfc, hpd, hnle]
    simp only [runTrace]
    rw [h1, ha]
    simp [hu]
  · intro hle
    have hnlt : ¬ (t1 < t + 2000) := by omega
    have hb : stepEvent rf { st with isProcessingPasswordUpdate := true, procClears := [t + 2000] } t1 .signedOut sb =
        { st with isProcessingPasswordUpdate := false, procClears := [], user := none } := by
      simp [stepEvent, fireDue, hfc, hpd, hle, hnlt]
    simp only [runTrace]
    rw [h1, hb]
  · simp only [runTrace, h1]
    by_cases hle1 : t + 2000 ≤ t1
    · -- the scheduled clear fires before SIGNED_IN
      have hnlt1 : ¬ (t1 < t + 2000) := by omega
      have h2 : stepEvent rf { st with isProcessingPasswordUpdate := true, procClears := [t + 2000] } t1 .signedIn sb =
          { st with isProcessingPasswordUpdate := false, procClears := [], pending := some (t1 + 100, sb) } := by
        simp [stepEvent, fireDue, hfc, hpd, hle1, hnlt1]
      rw [h2]
      by_cases hfire : t1 + 100 ≤ t2
      · have h3 : stepEvent rf { st with isProcessingPasswordUpdate := false, procClears := [], pending := some (t1 + 100, sb) } t2 .signedOut sc =
            { st with isProcessingPasswordUpdate := false, procClears := [], pending := none, reconciles := st.reconciles ++ [sb], user := none } := by
          simp [stepEvent, fireDue, hfc, hfire]
        rw [h3]
      · have h3 : stepEvent rf { st with isProcessingPasswordUpdate := false, procClears := [], pending := some (t1 + 100, sb) } t2 .signedOut sc =
            { st with isProcessingPasswordUpdate := false, procClears := [], pending := some (t1 + 100, sb), user := none } := by
          simp [stepEvent, fireDue, hfc, hfire]
        rw [h3]
    · -- SIGNED_IN lowers the flag itself; the clear timer is still pending
      have h2 : stepEvent rf { st with isProcessingPasswordUpdate := true, procClears := [t + 2000] } t1 .signedIn sb =
          { st with isProcessingPasswordUpdate := false, procClears := [t + 2000], pending := some (t1 + 100, sb) } := by
        simp [stepEvent, fireDue, hfc, hpd, hle1]
      rw [h2]
      by_cases hle2 : t + 2000 ≤ t2 <;> by_cases hfire : t1 + 100 ≤ t2
      · have hnlt2 : ¬ (t2 < t + 2000) := by omega
        have h3 : stepEvent rf { st with isProcessingPasswordUpdate := false, procClears := [t + 2000], pending := some (t1 + 100, sb) } t2 .signedOut sc =
            { st with isProcessingPasswordUpdate := false, procClears := [], pending := none, reconciles := st.reconciles ++ [sb], user := none } := by
          simp [stepEvent, fireDue, hfc, hle2, hfire, hnlt2]
        rw [h3]
      · have hnlt2 : ¬ (t2 < t + 2000) := by omega
        have h3 : stepEvent rf { st with isProcessingPasswordUpdate := false, procClears := [t + 2000], pending := some (t1 + 100, sb) } t2 .signedOut sc =
            { st with isProcessingPasswordUpdate := false, procClears := [], pending := some (t1 + 100, sb), user := none } := by
          simp [stepEvent, fireDue, hfc, hle2, hfire, hnlt2]
        rw [h3]
      · have h3 : stepEvent rf { st with isProcessingPasswordUpdate := false, procClears := [t + 2000], pending := some (t1 + 100, sb) } t2 .signedOut sc =
            { st with isProcessingPasswordUpdate := false, procClears := [t + 2000], pending := none, reconciles := st.reconciles ++ [sb], user := none } := by
          simp [stepEvent, fireDue, hfc, hle2, hfire]
        rw [h3]
      · have h3 : stepEvent rf { st with isProcessingPasswordUpdate := false, procClears := [t + 2000], pending := some (t1 + 100, sb) } t2 .signedOut sc =
            { st with isProcessingPasswordUpdate := false, procClears := [t + 2000], pending := some (t1 + 100, sb), user := none } := by
          simp [stepEvent, fireDue, hfc, hle2, hfire]
        rw [h3]

/-- Witness for password_window_signed_out at a concrete state and
concrete times. -/
theorem password_window_signed_out_witness :
    (runTrace rfNone stQuiet [(0, .userUpdated, none), (100, .signedOut, none)]).user = some (tempUserOf suX) ∧
    (runTrace rfNone stQuiet [(0, .userUpdated, none), (2500, .signedOut, none)]).user = none ∧
    (runTrace rfNone stQuiet [(0, .userUpdated, none), (10, .signedIn, some sessPlain), (20, .signedOut, none)]).user = none := by
  have h := password_window_signed_out rfNone stQuiet (tempUserOf suX)
    none none none 0 100 20 rfl rfl rfl rfl
  have h2 := password_window_signed_out rfNone stQuiet (tempUserOf suX)
    none none none 0 2500 20 rfl rfl rfl rfl
  have h3 := password_window_signed_out rfNone stQuiet (tempUserOf suX)
    none (some sessPlain) none 0 10 20 rfl rfl rfl rfl
  exact ⟨h.1 (by decide), h2.2.1 (by decide), h3.2.2⟩

/-! ### C7: a burst of debounced events yields one reconciliation pass -/

/-- Firing due timers at a time before the pending debounce fire time
leaves the published user, the executed reconciliations and the pending
timer unchanged (only the flags can change). -/
theorem fireDue_skip (rf : Option Session → Option AuthenticatedUser)
    (st : ProviderState) (t : Nat)
    (h : ∀ p ∈ st.pending, t < p.1) :
    (fireDue rf st t).user = st.user ∧
    (fireDue rf st t).reconciles = st.reconciles ∧
    (fireDue rf st t).pending = st.pending := by
  rcases hp : st.pending with _ | p
  · simp only [fireDue, hp]
    by_cases hA : (st.procClears.any fun c => decide (c ≤ t)) = true <;>
    by_cases hB : (st.flowClears.any fun c => decide (c ≤ t)) = true <;>
    simp [hA, hB, hp]
  · have hlt : t < p.1 := h p (by simp [hp])
    have hnle : ¬ (p.1 ≤ t) := by omega
    simp only [fireDue, hp]
    by_cases hA : (st.procClears.any fun c => decide (c ≤ t)) = true <;>
    by_cases hB : (st.flowClears.any fun c => decide (c ≤ t)) = true <;>
    simp [hA, hB, hnle, hp]

/-- Firing due timers at a time at or past the pending debounce fire time
executes exactly that reconciliation: the captured session is appended to
the executed list, the published user becomes its resolution, and the
timer slot empties. -/
theorem fireDue_fire (rf : Option Session → Option AuthenticatedUser)
    (st : ProviderState) (t τ : Nat) (σ : Option Session)
    (hp : st.pending = some (τ, σ)) (ht : τ ≤ t) :
    (fireDue rf st t).reconciles = st.reconciles ++ [σ] ∧
    (fireDue rf st t).user = rf σ ∧
    (fireDue rf st t).pending = none := by
  simp only [fireDue, hp]
  by_cases hA : (st.procClears.any fun c => decide (c ≤ t)) = true <;>
  by_cases hB : (st.flowClears.any fun c => decide (c ≤ t)) = true <;>
  simp [hA, hB, ht, hp]

/-- A debounced event (SIGNED_IN or any unnamed event) whose arrival
precedes the pending fire time replaces the debounce timer with its own
session and leaves the published user and the executed reconciliations
unchanged. -/
theorem stepEvent_debounced (rf : Option Session → Option AuthenticatedUser)
    (st : ProviderState) (t : Nat) (e : AuthEvent) (sess : Option Session)
    (he : debounced e = true) (h : ∀ p ∈ st.pending, t < p.1) :
    (stepEvent rf st t e sess).user = st.user ∧
    (stepEvent rf st t e sess).reconciles = st.reconciles ∧
    (stepEvent rf st t e sess).pending = some (t + 100, sess) := by
  obtain ⟨h1, h2, h3⟩ := fireDue_skip rf st t h
  rcases e with _ | _ | _ | _ | _ <;> simp [debounced] at he
  · refine ⟨?_, ?_, ?_⟩ <;> simp [stepEvent] <;> split <;> simp [h1, h2, h3]
  · exact ⟨by simp [stepEvent, h1], by simp [stepEvent, h2], by simp [stepEvent]⟩

/-- Running a burst of debounced events leaves the published user and the
executed reconciliations unchanged, and parks the debounce timer at the
last event time plus 100 ms with the last event session. -/
theorem burst_run (rf : Option Session → Option AuthenticatedUser) :
    ∀ (L : List (Nat × AuthEvent × Option Session))
      (x : Nat × AuthEvent × Option Session) (st : ProviderState),
      isBurst (x :: L) = true →
      (∀ y ∈ x :: L, debounced y.2.1 = true) →
      (∀ p ∈ st.pending, x.1 < p.1) →
      (runTrace rf st (x :: L)).user = st.user ∧
      (runTrace rf st (x :: L)).reconciles = st.reconciles ∧
      (runTrace rf st (x :: L)).pending = some (lastTime x L + 100, lastSess x L) := by
  intro L
  induction L with
  | nil =>
    intro x st _ hd hp
    obtain ⟨t, e, sess⟩ := x
    obtain ⟨h1, h2, h3⟩ := stepEvent_debounced rf st t e sess
      (hd (t, e, sess) (by simp)) hp
    exact ⟨h1, h2, by rw [runTrace, runTrace, h3]; rfl⟩
  | cons y L ih =>
    intro x st hb hd hp
    obtain ⟨t, e, sess⟩ := x
    obtain ⟨ty, ey, sy⟩ := y
    obtain ⟨h1, h2, h3⟩ := stepEvent_debounced rf st t e sess
      (hd (t, e, sess) (by simp)) hp
    have hby : ty < t + 100 ∧ isBurst ((ty, ey, sy) :: L) = true := by
      simpa [isBurst] using hb
    have hd2 : ∀ z ∈ (ty, ey, sy) :: L, debounced z.2.1 = true := by
      intro z hz
      exact hd z (List.mem_cons_of_mem _ hz)
    have hp2 : ∀ p ∈ (stepEvent rf st t e sess).pending, (ty, ey, sy).1 < p.1 := by
      intro p hmem
      rw [h3] at hmem
      simp at hmem
      subst hmem
      simpa using hby.1
    obtain ⟨g1, g2, g3⟩ := ih (ty, ey, sy) (stepEvent rf st t e sess) hby.2 hd2 hp2
    refine ⟨?_, ?_, ?_⟩
    · rw [runTrace, g1, h1]
    · rw [runTrace, g2, h2]
    · rw [runTrace, g3]
      rfl

/-- C7: a nonempty burst of change notifications that all reach the
debounce branch (neither token-refreshed, user-updated nor signed-out),
each arriving within 100 ms of the previous one, executes exactly one
reconciliation pass once the burst is over: flushing the timers at any
time past the last arrival plus 100 ms appends exactly one executed pass,
carrying the session of the last event, whose resolution becomes the
published user. -/
theorem debounce_single_pass (rf : Option Session → Option AuthenticatedUser)
    (x : Nat × AuthEvent × Option Session)
    (L : List (Nat × AuthEvent × Option Session))
    (st : ProviderState) (tEnd : Nat)
    (hb : isBurst (x :: L) = true)
    (hd : ∀ y ∈ x :: L, debounced y.2.1 = true)
    (hp : st.pending = none)
    (hEnd : lastTime x L + 100 ≤ tEnd) :
    (fireDue rf (runTrace rf st (x :: L)) tEnd).reconciles =
      st.reconciles ++ [lastSess x L] ∧
    (fireDue rf (runTrace rf st (x :: L)) tEnd).user = rf (lastSess x L) ∧
    (fireDue rf (runTrace rf st (x :: L)) tEnd).pending = none := by
  obtain ⟨h1, h2, h3⟩ := burst_run rf L x st hb hd (by rw [hp]; intro p hmem; cases hmem)
  obtain ⟨g1, g2, g3⟩ := fireDue_fire rf (runTrace rf st (x :: L)) tEnd
    (lastTime x L + 100) (lastSess x L) h3 hEnd
  exact ⟨by rw [g1, h2], g2, g3⟩

/-- Five concrete sessions distinguished by expiry stamp. -/
def sessAt (n : Nat) : Session := { user := some suX, expires_at := some n }

/-- Witness for debounce_single_pass: five events in one 100 ms burst
produce exactly one reconciliation pass, carrying the fifth session. -/
theorem debounce_single_pass_witness :
    (fireDue rfNone (runTrace rfNone stQuiet
      [(0, .otherEvent, some (sessAt 1)), (20, .otherEvent, some (sessAt 2)),
       (40, .signedIn, some (sessAt 3)), (60, .otherEvent, some (sessAt 4)),
       (80, .otherEvent, some (sessAt 5))]) 200).reconciles = [some (sessAt 5)] := by
  have h := debounce_single_pass rfNone (0, .otherEvent, some (sessAt 1))
    [(20, .otherEvent, some (sessAt 2)), (40, .signedIn, some (sessAt 3)),
     (60, .otherEvent, some (sessAt 4)), (80, .otherEvent, some (sessAt 5))]
    stQuiet 200 (by decide) (by decide) (by decide) (by decide)
  simpa using h.1

end ERehistro
